import Mathlib

/-!
# A shallow embedding of `Thread` from `src/src/thread.h`

This file embeds the coordinator/worker lifecycle supervisor `Thread`
(header `src/src/thread.h`) in Lean and proves the specification claims
about it.

What is taken directly from the source header:
* the `State` enum and the `mark_stopped` / `mark_starting` /
  `mark_running` / `mark_stopping` transitions (thread.h lines 160-169,
  181-186);
* the full body of the `send_all` template (thread.h lines 203-271);
* the full body of the `emit_all` template (thread.h lines 273-287);
* the `OfflineCommandOutcome` codes `OFFLINE_ACK` and `TRIGGER_RUN`
  (thread.h lines 111-114).

The translation unit `thread.cpp` and the collaborator headers
(`errable.h`, `result.h`, `queue.h`, `message.h`, `thread_starter.h`) are
not part of the repository snapshot, so the pieces of behaviour they
decide (the sticky health flag of `SyncErrable`, `run()`, `send`,
`drain`, `receive_all`, `emit`, message formatting, and the worker-side
lifecycle discipline) are modelled from the spec; each such definition
carries a doc comment saying so.

Queues are lists (front = oldest).  Cross-thread side effects are made
observable as a trace of `Effect`s so that ordering and counting claims
("join happens first", "exactly one wake trigger") can be stated.
Fallible collaborator calls (`handle_offline_command`, queue enqueues,
`uv_thread_create`, `uv_async_send`, the `wake()` hint) are parametrised
by an `Env` record whose `Option String` fields are `none` on success and
`some msg` when the call fails with message `msg`.
-/

namespace Watcher

/-- The `State` enum of `Thread` (thread.h lines 181-186). -/
inductive State where
  | STOPPED
  | STARTING
  | RUNNING
  | STOPPING
deriving DecidableEq, Repr

/-- A command payload (`CommandPayload`, from `message.h` which is not in
the snapshot).  Only its identity matters to the embedded code: `send_all`
hands it unchanged to `handle_offline_command`.  `action` stands for the
payload tag, `arg` for any argument such as a log-file path. -/
structure CommandPayload where
  action : Nat
  arg : String
deriving DecidableEq, Repr

/-- A `Message` is either a command or an ack (`message.h`, not in the
snapshot; modelled from the spec §3: "tagged as Command or Ack", the ack
carrying a success flag, diagnostic text and a correlation back-reference
to the message it answers).  `id` gives each message the identity used
for that correlation. -/
inductive Message where
  | command (id : Nat) (payload : CommandPayload)
  | ackMsg (origin : Nat) (success : Bool) (text : String)
deriving DecidableEq, Repr

/-- `Message::as_command()`: the payload when the message is a command,
null otherwise. -/
def Message.as_command : Message → Option CommandPayload
  | .command _ p => some p
  | .ackMsg _ _ _ => none

/-- The identity of a message, used to correlate acks to commands. -/
def Message.mid : Message → Nat
  | .command i _ => i
  | .ackMsg o _ _ => o

/-- `Message::ack(original, success, text)`: build an ack answering
`m` (modelled from the spec §3: correlation by identity). -/
def Message.ackOf (m : Message) (success : Bool) (text : String) : Message :=
  .ackMsg m.mid success text

/-- `Message::ack(original, result)`: an ack whose success flag mirrors a
`Result<>` (`r0.propagate_as_void()` at thread.h line 238); an ok result
gives a success ack with empty text, an error gives a failure ack
carrying the error message. -/
def Message.ackOfResult (m : Message) : Except String Unit → Message
  | .ok _ => m.ackOf true ""
  | .error e => m.ackOf false e

/-- Modelled from the spec: the `operator<<` rendering of a `Message`
(`message.h` is not in the snapshot); only used inside diagnostic ack
texts. -/
def Message.describe : Message → String
  | .command i p => "Command(" ++ toString i ++ "," ++ toString p.action ++ ")"
  | .ackMsg o s _ => "Ack(" ++ toString o ++ "," ++ toString s ++ ")"

/-- `OFFLINE_ACK` (thread.h line 112).  `OfflineCommandOutcome` values are
embedded as `Nat` because C++ lets a subclass return a value outside the
enumerators, which `send_all` line 244 explicitly handles. -/
def OFFLINE_ACK : Nat := 0

/-- `TRIGGER_RUN` (thread.h line 113). -/
def TRIGGER_RUN : Nat := 1

/-- Modelled from the spec: rendering of the `Result<OfflineCommandOutcome>`
value `r0` in the invalid-outcome diagnostic (thread.h line 246;
`result.h` is not in the snapshot). -/
def outcomeDescr (k : Nat) : String := toString k

/-- The failure-ack text for a non-command message (thread.h lines
230-232). -/
def nonCommandText (m : Message) : String :=
  "Non-command message " ++ m.describe ++ " sent"

/-- The failure-ack text for an invalid offline outcome (thread.h lines
245-247); it names the handler's output `k`. -/
def invalidOutcomeText (m : Message) (k : Nat) : String :=
  "Message " ++ m.describe ++ " returned invalid offline outcome " ++ outcomeDescr k

/-- The coordinator-visible state of a `Thread` (thread.h lines 180-201).
`healthErr` models the sticky error of the `SyncErrable` superclass
(`errable.h` is not in the snapshot; modelled from the spec §7: the first
health error is stored and every later public call returns it):
`none` means healthy, `some e` means permanently unhealthy with error
`e`.  `inQ` and `outQ` are the `in` and `out` queues as lists, oldest
first. -/
structure Thread where
  healthErr : Option String
  state : State
  inQ : List Message
  outQ : List Message
  dead_letter_office : Option (List Message)
deriving DecidableEq, Repr

/-- `mark_stopped()` (thread.h line 160): `state.store(State::STOPPED)`. -/
def mark_stopped (t : Thread) : Thread := { t with state := State.STOPPED }

/-- `mark_starting()` (thread.h line 161). -/
def mark_starting (t : Thread) : Thread := { t with state := State.STARTING }

/-- `mark_running()` (thread.h line 162). -/
def mark_running (t : Thread) : Thread := { t with state := State.RUNNING }

/-- `mark_stopping()` (thread.h line 163). -/
def mark_stopping (t : Thread) : Thread := { t with state := State.STOPPING }

/-- Observable cross-thread side effects of the coordinator-side
operations, recorded as a trace. -/
inductive Effect where
  | join
  | enqueueIn (m : Message)
  | enqueueInAll (ms : List Message)
  | enqueueOutAll (ms : List Message)
  | wakeHint
  | runCall
  | asyncSend
deriving DecidableEq, Repr

/-- Is the effect a batch enqueue on the `out` queue? -/
def Effect.isOutEnq : Effect → Bool
  | .enqueueOutAll _ => true
  | _ => false

/-- Is the effect a trigger of the coordinator-facing wake signal
(`uv_async_send`)? -/
def Effect.isAsync : Effect → Bool
  | .asyncSend => true
  | _ => false

/-- Outcomes of the fallible collaborator calls made by the embedded
operations.  `offline` is the virtual `handle_offline_command` (an
`Except` error models `r0.is_error()`, an ok `Nat` the returned outcome
code).  The `Option String` fields are `none` when the corresponding
call succeeds and `some e` when it fails with error text `e`:
`inErr` for `in.enqueue` / `in.enqueue_all`, `outErr` for
`out.enqueue_all`, `runErr` for the worker spawn inside `run()`,
`wakeErr` for the `wake()` hint, `asyncErr` for `uv_async_send`
(already rendered through `uv_strerror`). -/
structure Env where
  offline : CommandPayload → Except String Nat
  inErr : Option String
  outErr : Option String
  runErr : Option String
  wakeErr : Option String
  asyncErr : Option String

/-- The result triple of a coordinator-side operation: the returned
`Result`, the thread afterwards, and the trace of cross-thread effects
performed. -/
abbrev Out (α : Type) := Except String α × Thread × List Effect

/-- Modelled from the spec: `run()` (defined in `thread.cpp`, not in the
snapshot; spec §4.1): if unhealthy return the stored error; otherwise
mark STARTING and spawn the worker; a spawn failure is a health error,
leaving the instance permanently unhealthy. -/
def runOp (env : Env) (t : Thread) : Out Unit :=
  match t.healthErr with
  | some e => (.error e, t, [])
  | none =>
    let t1 := mark_starting t
    match env.runErr with
    | some e => (.error e, { t1 with healthErr := some e }, [Effect.runCall])
    | none => (.ok (), t1, [Effect.runCall])

/-- The classification loop of `send_all` over a batch while the thread
is `STOPPED`, together with the post-loop ack emission and run trigger
(thread.h lines 223-261).  `sr` is `should_run`, `acks` the buffered ack
vector, `tr` the trace accumulated so far. -/
def stoppedGo (env : Env) (t : Thread) (msgs : List Message)
    (sr : Bool) (acks : List Message) (tr : List Effect) : Out Bool :=
  match msgs with
  | [] =>
    -- lines 251-254: emit the buffered acks as one batch on `out`
    match (if acks.isEmpty then Except.ok (t, tr)
           else match env.outErr with
             | some e => Except.error e
             | none =>
               Except.ok ({ t with outQ := t.outQ ++ acks },
                 tr ++ [Effect.enqueueOutAll acks])) with
    | .error e => (.error e, t, tr)
    | .ok (t1, tr1) =>
      -- lines 256-260: run if triggered, report whether any acks exist
      if sr then
        let rr := runOp env t1
        ((match rr.1 with
          | .error e => Except.error e
          | .ok _ => Except.ok (!acks.isEmpty)), rr.2.1, tr1 ++ rr.2.2)
      else (.ok (!acks.isEmpty), t1, tr1)
  | m :: rest =>
    match m.as_command with
    | none =>
      -- lines 229-234: non-command message, failure ack
      stoppedGo env t rest sr (acks ++ [m.ackOf false (nonCommandText m)]) tr
    | some c =>
      match env.offline c with
      | .error e =>
        -- line 237-238: handler error, ack mirrors the error result
        stoppedGo env t rest sr (acks ++ [m.ackOfResult (.error e)]) tr
      | .ok k =>
        if k = OFFLINE_ACK then
          -- line 237-238: OFFLINE_ACK, success ack
          stoppedGo env t rest sr (acks ++ [m.ackOfResult (.ok ())]) tr
        else if k = TRIGGER_RUN then
          -- lines 239-243: enqueue to `in` and remember to run
          match env.inErr with
          | some e => (.error e, t, tr)
          | none =>
            stoppedGo env { t with inQ := t.inQ ++ [m] } rest true acks
              (tr ++ [Effect.enqueueIn m])
        else
          -- lines 244-248: invalid offline outcome, failure ack
          stoppedGo env t rest sr
            (acks ++ [m.ackOf false (invalidOutcomeText m k)]) tr

/-- The part of `send_all` after the STOPPING block (thread.h lines
223-270): the STOPPED classification branch, otherwise the plain batch
enqueue with a wake hint when RUNNING. -/
def sendAllRest (env : Env) (t : Thread) (msgs : List Message) : Out Bool :=
  if t.state = State.STOPPED then
    stoppedGo env t msgs false [] []
  else
    -- lines 263-264: in.enqueue_all(begin, end)
    match env.inErr with
    | some e => (.error e, t, [])
    | none =>
      let t1 : Thread := { t with inQ := t.inQ ++ msgs }
      if t1.state = State.RUNNING then
        -- lines 266-268: wake().propagate(false)
        match env.wakeErr with
        | some e => (.error e, t1, [Effect.enqueueInAll msgs, Effect.wakeHint])
        | none => (.ok false, t1, [Effect.enqueueInAll msgs, Effect.wakeHint])
      else (.ok false, t1, [Effect.enqueueInAll msgs])

/-- `send_all` (thread.h lines 203-271).  The STOPPING branch joins the
worker; that the thread reads `STOPPED` once the join returns is
modelled from the spec (§4.1/§4.3: the worker's stop sequence marks
STOPPED just before exiting, and `start()` lives in `thread.cpp`, not in
the snapshot).  The recursive `send_all(dead_letters->begin(), ...)` call
at line 219 re-enters a thread that is healthy (unchanged) and STOPPED,
so it is expanded to `sendAllRest`; the lemma `sendAll_fix_stopping`
below proves the fixpoint equation of the source recursion. -/
def sendAll (env : Env) (t : Thread) (msgs : List Message) : Out Bool :=
  match t.healthErr with
  | some e => (.error e, t, [])
  | none =>
    if t.state = State.STOPPING then
      match t.dead_letter_office with
      | some dl =>
        -- lines 211-219: take the dead letters, append the new
        -- messages, re-dispatch the combined batch
        let r := sendAllRest env
          { t with state := State.STOPPED, dead_letter_office := none }
          (dl ++ msgs)
        (r.1, r.2.1, Effect.join :: r.2.2)
      | none =>
        let r := sendAllRest env { t with state := State.STOPPED } msgs
        (r.1, r.2.1, Effect.join :: r.2.2)
    else sendAllRest env t msgs

/-- Modelled from the spec: `send(message)` (defined in `thread.cpp`, not
in the snapshot) behaves as `send_all` on the one-element batch
(thread.h lines 46-58 document the two calls identically up to
batching). -/
def sendOp (env : Env) (t : Thread) (m : Message) : Out Bool :=
  sendAll env t [m]

/-- Modelled from the spec: `drain()` (defined in `thread.cpp`, not in
the snapshot; spec §4.3: "exactly this same replay, invoked with an empty
new-messages set"). -/
def drainOp (env : Env) (t : Thread) : Out Bool :=
  sendAll env t []

/-- `emit_all` (thread.h lines 273-287): health check, one batch enqueue
on `out`, one `uv_async_send` wake trigger.  That a wake-trigger failure
stores the health error (making the instance permanently unhealthy) is
modelled from the spec (§7 lists "wake-signal trigger failure" among the
fatal sticky health errors; `result.h`/`errable.h` are not in the
snapshot). -/
def emitAll (env : Env) (t : Thread) (msgs : List Message) : Out Unit :=
  match t.healthErr with
  | some e => (.error e, t, [])
  | none =>
    match env.outErr with
    | some e => (.error e, t, [])
    | none =>
      let t1 : Thread := { t with outQ := t.outQ ++ msgs }
      match env.asyncErr with
      | some e =>
        (.error e, { t1 with healthErr := some e },
          [Effect.enqueueOutAll msgs, Effect.asyncSend])
      | none => (.ok (), t1, [Effect.enqueueOutAll msgs, Effect.asyncSend])

/-- Modelled from the spec: `emit(message)` (defined in `thread.cpp`, not
in the snapshot) behaves as `emit_all` on the one-element batch
(thread.h lines 88-99). -/
def emitOp (env : Env) (t : Thread) (m : Message) : Out Unit :=
  emitAll env t [m]

/-- Modelled from the spec: `receive_all()` (defined in `thread.cpp`, not
in the snapshot; thread.h lines 60-63 and spec §4.4: atomically take and
clear the whole `out` queue; a null pointer — `none` — is returned when
nothing was waiting). -/
def receiveAll (t : Thread) : Except String (Option (List Message)) × Thread :=
  match t.healthErr with
  | some e => (.error e, t)
  | none =>
    if t.outQ.isEmpty then (.ok none, { t with outQ := [] })
    else (.ok (some t.outQ), { t with outQ := [] })

/-- The synchronous ack `send_all` buffers for message `m` in the STOPPED
classification, `none` when `m` is instead enqueued for the worker
(TRIGGER_RUN). -/
def ackFor (env : Env) (m : Message) : Option Message :=
  match m.as_command with
  | none => some (m.ackOf false (nonCommandText m))
  | some c =>
    match env.offline c with
    | .error e => some (m.ackOfResult (.error e))
    | .ok k =>
      if k = OFFLINE_ACK then some (m.ackOfResult (.ok ()))
      else if k = TRIGGER_RUN then none
      else some (m.ackOf false (invalidOutcomeText m k))

/-- Does the offline classification of `m` return `TRIGGER_RUN`? -/
def isTrig (env : Env) (m : Message) : Bool :=
  match m.as_command with
  | none => false
  | some c =>
    match env.offline c with
    | .error _ => false
    | .ok k => !(k = OFFLINE_ACK) && k = TRIGGER_RUN

/-- All synchronous acks the STOPPED classification produces for a
batch, in batch order. -/
def acksOf (env : Env) (msgs : List Message) : List Message :=
  msgs.filterMap (ackFor env)

/-- The messages of a batch that the STOPPED classification enqueues to
`in` (those whose offline handling returns `TRIGGER_RUN`), in batch
order. -/
def trigs (env : Env) (msgs : List Message) : List Message :=
  msgs.filter (isTrig env)

/-- When `in.enqueue` never fails, the classification loop of the
STOPPED branch reduces to its closed form: the `TRIGGER_RUN` messages
are appended to `in`, the run flag records whether any message
triggered, the buffered acks are `acksOf`, and the trace grows by one
`enqueueIn` per triggering message, in batch order. -/
lemma stoppedGo_acc (env : Env) (hin : env.inErr = none) :
    ∀ (msgs : List Message) (t : Thread) (sr : Bool) (acks : List Message)
      (tr : List Effect),
    stoppedGo env t msgs sr acks tr =
      stoppedGo env { t with inQ := t.inQ ++ trigs env msgs } []
        (sr || msgs.any (isTrig env)) (acks ++ acksOf env msgs)
        (tr ++ (trigs env msgs).map Effect.enqueueIn) := by
  intro msgs
  induction msgs with
  | nil => intro t sr acks tr; simp [trigs, acksOf]
  | cons m rest ih =>
    intro t sr acks tr
    cases hc : m.as_command with
    | none =>
      rw [show stoppedGo env t (m :: rest) sr acks tr =
        stoppedGo env t rest sr (acks ++ [m.ackOf false (nonCommandText m)]) tr from by
          simp [stoppedGo, hc]]
      rw [ih]
      simp [trigs, acksOf, isTrig, ackFor, hc]
    | some c =>
      cases ho : env.offline c with
      | error e =>
        rw [show stoppedGo env t (m :: rest) sr acks tr =
          stoppedGo env t rest sr (acks ++ [m.ackOfResult (.error e)]) tr from by
            simp [stoppedGo, hc, ho]]
        rw [ih]
        simp [trigs, acksOf, isTrig, ackFor, hc, ho]
      | ok k =>
        by_cases hk0 : k = OFFLINE_ACK
        · rw [show stoppedGo env t (m :: rest) sr acks tr =
            stoppedGo env t rest sr (acks ++ [m.ackOfResult (.ok ())]) tr from by
              simp [stoppedGo, hc, ho, hk0]]
          rw [ih]
          simp [trigs, acksOf, isTrig, ackFor, hc, ho, hk0]
        · by_cases hk1 : k = TRIGGER_RUN
          · rw [show stoppedGo env t (m :: rest) sr acks tr =
              stoppedGo env { t with inQ := t.inQ ++ [m] } rest true acks
                (tr ++ [Effect.enqueueIn m]) from by
                simp [stoppedGo, hc, ho, hk1, hin, OFFLINE_ACK, TRIGGER_RUN]]
            rw [ih]
            simp [trigs, acksOf, isTrig, ackFor, hc, ho, hk1, OFFLINE_ACK, TRIGGER_RUN]
          · rw [show stoppedGo env t (m :: rest) sr acks tr =
              stoppedGo env t rest sr
                (acks ++ [m.ackOf false (invalidOutcomeText m k)]) tr from by
                simp [stoppedGo, hc, ho, hk0, hk1]]
            rw [ih]
            simp [trigs, acksOf, isTrig, ackFor, hc, ho, hk0, hk1]

/-- `run()` never touches `dead_letter_office`. -/
lemma runOp_dlo (env : Env) (t : Thread) :
    (runOp env t).2.1.dead_letter_office = t.dead_letter_office := by
  cases h : t.healthErr <;> cases hr : env.runErr <;>
    simp [runOp, h, hr, mark_starting]

/-- The STOPPED classification never touches `dead_letter_office`. -/
lemma stoppedGo_dlo (env : Env) :
    ∀ (msgs : List Message) (t : Thread) (sr : Bool) (acks : List Message)
      (tr : List Effect),
    (stoppedGo env t msgs sr acks tr).2.1.dead_letter_office =
      t.dead_letter_office := by
  intro msgs
  induction msgs with
  | nil =>
    intro t sr acks tr
    by_cases hA : acks.isEmpty
    · by_cases hsr : sr <;> simp [stoppedGo, hA, hsr, runOp_dlo]
    · cases ho : env.outErr <;> by_cases hsr : sr <;>
        simp [stoppedGo, hA, ho, hsr, runOp_dlo]
  | cons m rest ih =>
    intro t sr acks tr
    cases hc : m.as_command with
    | none => simp [stoppedGo, hc, ih]
    | some c =>
      cases ho : env.offline c with
      | error e => simp [stoppedGo, hc, ho, ih]
      | ok k =>
        by_cases hk0 : k = OFFLINE_ACK
        · simp [stoppedGo, hc, ho, hk0, ih]
        · by_cases hk1 : k = TRIGGER_RUN
          · cases hin : env.inErr <;>
              simp [stoppedGo, hc, ho, hk1, hin, ih, OFFLINE_ACK, TRIGGER_RUN]
          · simp [stoppedGo, hc, ho, hk0, hk1, ih]

/-- The non-STOPPING part of `send_all` never touches
`dead_letter_office`. -/
lemma sendAllRest_dlo (env : Env) (t : Thread) (msgs : List Message) :
    (sendAllRest env t msgs).2.1.dead_letter_office = t.dead_letter_office := by
  by_cases hst : t.state = State.STOPPED
  · simp [sendAllRest, hst, stoppedGo_dlo]
  · cases hin : env.inErr with
    | some e => simp [sendAllRest, hst, hin]
    | none =>
      by_cases hr : t.state = State.RUNNING <;>
        cases hw : env.wakeErr <;> simp [sendAllRest, hst, hin, hr, hw]

/-- The fixpoint equation of the source recursion at thread.h line 219:
on a healthy STOPPING thread holding dead letters, `send_all` joins and
then behaves exactly as `send_all` re-invoked on the joined (STOPPED,
dead-letter-free) thread with the dead letters prepended to the new
batch. -/
lemma sendAll_fix_stopping (env : Env) (t : Thread) (dl : List Message)
    (msgs : List Message) (hh : t.healthErr = none)
    (hst : t.state = State.STOPPING) (hd : t.dead_letter_office = some dl) :
    sendAll env t msgs =
      ((sendAll env { t with state := State.STOPPED, dead_letter_office := none }
          (dl ++ msgs)).1,
       (sendAll env { t with state := State.STOPPED, dead_letter_office := none }
          (dl ++ msgs)).2.1,
       Effect.join ::
         (sendAll env { t with state := State.STOPPED, dead_letter_office := none }
            (dl ++ msgs)).2.2) := by
  simp [sendAll, hh, hst, hd]

/-- On a healthy STOPPED thread with a reliable `in` queue, `send_all`
is the classification loop in closed form. -/
lemma sendAll_stopped_eq (env : Env) (t : Thread) (msgs : List Message)
    (hh : t.healthErr = none) (hst : t.state = State.STOPPED)
    (hin : env.inErr = none) :
    sendAll env t msgs =
      stoppedGo env { t with inQ := t.inQ ++ trigs env msgs } []
        (msgs.any (isTrig env)) (acksOf env msgs)
        ((trigs env msgs).map Effect.enqueueIn) := by
  have h1 : sendAll env t msgs = stoppedGo env t msgs false [] [] := by
    simp [sendAll, hh, hst, sendAllRest]
  rw [h1, stoppedGo_acc env hin]
  simp

/-- Derived normal form of the STOPPED branch of `send_all`, used to
settle the classification claims: the `TRIGGER_RUN` messages go to `in`,
the synchronous acks (if any) go to `out` as one batch, and `run()` is
invoked last exactly when some message triggered. -/
def stoppedForm (env : Env) (t : Thread) (msgs : List Message) : Out Bool :=
  let A := acksOf env msgs
  let t1 : Thread :=
    if A.isEmpty then { t with inQ := t.inQ ++ trigs env msgs }
    else { t with inQ := t.inQ ++ trigs env msgs, outQ := t.outQ ++ A }
  let tr1 : List Effect :=
    (trigs env msgs).map Effect.enqueueIn ++
      (if A.isEmpty then [] else [Effect.enqueueOutAll A])
  if msgs.any (isTrig env) then
    match env.runErr with
    | some e => (.error e, { mark_starting t1 with healthErr := some e },
        tr1 ++ [Effect.runCall])
    | none => (.ok (!A.isEmpty), mark_starting t1, tr1 ++ [Effect.runCall])
  else (.ok (!A.isEmpty), t1, tr1)

/-- `send_all` on a healthy STOPPED thread with reliable queues reaches
the derived normal form `stoppedForm`. -/
lemma sendAll_stopped_cases (env : Env) (t : Thread) (msgs : List Message)
    (hh : t.healthErr = none) (hst : t.state = State.STOPPED)
    (hin : env.inErr = none) (hout : env.outErr = none) :
    sendAll env t msgs = stoppedForm env t msgs := by
  rw [sendAll_stopped_eq env t msgs hh hst hin]
  unfold stoppedForm
  by_cases hA : (acksOf env msgs).isEmpty <;>
    by_cases hsr : msgs.any (isTrig env) <;>
      cases hr : env.runErr <;>
        simp [stoppedGo, hA, hsr, hout, hr, runOp, hh, mark_starting]

/-- An unhealthy thread short-circuits every public operation with its
stored error, unchanged state and an empty effect trace. -/
lemma unhealthy_ops (env : Env) (t : Thread) (e : String)
    (h : t.healthErr = some e) :
    (∀ msgs, sendAll env t msgs = (.error e, t, [])) ∧
    (∀ m, sendOp env t m = (.error e, t, [])) ∧
    drainOp env t = (.error e, t, []) ∧
    runOp env t = (.error e, t, []) ∧
    (∀ msgs, emitAll env t msgs = (.error e, t, [])) ∧
    (∀ m, emitOp env t m = (.error e, t, [])) ∧
    receiveAll t = (.error e, t) := by
  refine ⟨?_, ?_, ?_, ?_, ?_, ?_, ?_⟩ <;>
    simp [sendAll, sendOp, drainOp, runOp, emitAll, emitOp, receiveAll, h]

/-- A message is classified without a synchronous ack exactly when its
offline handling returns `TRIGGER_RUN`. -/
lemma ackFor_eq_none_iff (env : Env) (m : Message) :
    ackFor env m = none ↔ isTrig env m = true := by
  unfold ackFor isTrig
  cases hc : m.as_command with
  | none => simp [hc]
  | some c =>
    cases ho : env.offline c with
    | error e => simp [hc, ho]
    | ok k =>
      by_cases hk0 : k = OFFLINE_ACK
      · simp [hc, ho, hk0]
      · by_cases hk1 : k = TRIGGER_RUN <;> simp [hc, ho, hk0, hk1]

/-- A batch produces at least one synchronous ack exactly when some
message of it is not offline-classified as `TRIGGER_RUN`. -/
lemma acksOf_nonempty_iff (env : Env) (msgs : List Message) :
    (acksOf env msgs).isEmpty = false ↔ ∃ m ∈ msgs, isTrig env m = false := by
  rw [List.isEmpty_eq_false, Ne, acksOf, List.filterMap_eq_nil_iff]
  push_neg
  simp [ackFor_eq_none_iff]

/-! ## Concrete sample data used by the witnesses -/

/-- A sample environment in which every collaborator call succeeds and
`handle_offline_command` returns the command payload's `action` field as
its outcome code. -/
def envId : Env :=
  { offline := fun c => .ok c.action,
    inErr := none, outErr := none, runErr := none,
    wakeErr := none, asyncErr := none }

/-- A command whose offline handling returns `OFFLINE_ACK` under
`envId`. -/
def cmdA : Message := .command 1 ⟨OFFLINE_ACK, ""⟩

/-- A command whose offline handling returns `TRIGGER_RUN` under
`envId`. -/
def cmdR : Message := .command 2 ⟨TRIGGER_RUN, ""⟩

/-- A command whose offline handling returns the invalid outcome code 7
under `envId`. -/
def cmdBad : Message := .command 3 ⟨7, ""⟩

/-- A non-command (ack) message. -/
def ackX : Message := .ackMsg 9 true ""

/-- A healthy stopped thread with empty queues. -/
def t0 : Thread :=
  { healthErr := none, state := State.STOPPED, inQ := [], outQ := [],
    dead_letter_office := none }

/-! ## The claims -/

/-- Claim C2: after any operation has stored a health error, every
public operation (`run`, `send`, `send_all`, `receive_all`, `drain`,
`emit`, `emit_all`) returns that same stored error immediately, leaves
the thread completely unchanged (no queue mutation, no state change) and
performs no cross-thread effect (no join, no wake trigger). -/
theorem claim2_unhealthy_short_circuit (env : Env) (t : Thread) (e : String)
    (h : t.healthErr = some e) :
    (∀ msgs, sendAll env t msgs = (.error e, t, [])) ∧
    (∀ m, sendOp env t m = (.error e, t, [])) ∧
    drainOp env t = (.error e, t, []) ∧
    runOp env t = (.error e, t, []) ∧
    (∀ msgs, emitAll env t msgs = (.error e, t, [])) ∧
    (∀ m, emitOp env t m = (.error e, t, [])) ∧
    receiveAll t = (.error e, t) :=
  unhealthy_ops env t e h

/-- Witness for C2 on a concrete unhealthy thread. -/
theorem claim2_witness :
    ({ t0 with healthErr := some "boom" } : Thread).healthErr = some "boom" ∧
    sendAll envId { t0 with healthErr := some "boom" } [cmdA] =
      (.error "boom", { t0 with healthErr := some "boom" }, []) ∧
    receiveAll { t0 with healthErr := some "boom" } =
      (.error "boom", { t0 with healthErr := some "boom" }) := by
  have h := claim2_unhealthy_short_circuit envId
    { t0 with healthErr := some "boom" } "boom" rfl
  exact ⟨rfl, h.1 [cmdA], h.2.2.2.2.2.2⟩

/-- Claim C6: a `uv_async_send` wake-trigger failure inside `emit_all`
is a health error: the call returns the error, the instance stores it
permanently, and every subsequent public call short-circuits with that
same stored error and no side effects. -/
theorem claim6_wake_trigger_failure_sticky (env : Env) (t : Thread)
    (e : String) (msgs : List Message) (hh : t.healthErr = none)
    (ho : env.outErr = none) (ha : env.asyncErr = some e) :
    (emitAll env t msgs).1 = .error e ∧
    (emitAll env t msgs).2.1.healthErr = some e ∧
    (∀ env2 msgs2 m2,
      sendAll env2 (emitAll env t msgs).2.1 msgs2 =
        (.error e, (emitAll env t msgs).2.1, []) ∧
      sendOp env2 (emitAll env t msgs).2.1 m2 =
        (.error e, (emitAll env t msgs).2.1, []) ∧
      drainOp env2 (emitAll env t msgs).2.1 =
        (.error e, (emitAll env t msgs).2.1, []) ∧
      runOp env2 (emitAll env t msgs).2.1 =
        (.error e, (emitAll env t msgs).2.1, []) ∧
      emitAll env2 (emitAll env t msgs).2.1 msgs2 =
        (.error e, (emitAll env t msgs).2.1, []) ∧
      emitOp env2 (emitAll env t msgs).2.1 m2 =
        (.error e, (emitAll env t msgs).2.1, []) ∧
      receiveAll (emitAll env t msgs).2.1 =
        (.error e, (emitAll env t msgs).2.1)) := by
  have ht : (emitAll env t msgs).2.1.healthErr = some e := by
    simp [emitAll, hh, ho, ha]
  refine ⟨by simp [emitAll, hh, ho, ha], ht, ?_⟩
  intro env2 msgs2 m2
  have h := unhealthy_ops env2 (emitAll env t msgs).2.1 e ht
  exact ⟨h.1 msgs2, h.2.1 m2, h.2.2.1, h.2.2.2.1, h.2.2.2.2.1 msgs2,
    h.2.2.2.2.2.1 m2, h.2.2.2.2.2.2⟩

/-- Witness for C6 with a concretely failing wake trigger. -/
theorem claim6_witness :
    (emitAll { envId with asyncErr := some "EBUSY" } t0 [ackX]).1 =
      .error "EBUSY" ∧
    sendAll envId
        (emitAll { envId with asyncErr := some "EBUSY" } t0 [ackX]).2.1
        [cmdA] =
      (.error "EBUSY",
       (emitAll { envId with asyncErr := some "EBUSY" } t0 [ackX]).2.1, []) := by
  have h := claim6_wake_trigger_failure_sticky
    { envId with asyncErr := some "EBUSY" } t0 "EBUSY" [ackX] rfl rfl rfl
  exact ⟨h.1, (h.2.2 envId [cmdA] cmdA).1⟩

/-- Claim C7: a successful `emit_all` on a healthy thread performs
exactly one batch-enqueue on `out` and exactly one wake trigger, no
matter how many messages the batch holds; the whole batch lands on `out`
in one write. -/
theorem claim7_emit_all_single_enqueue_single_wake (env : Env) (t : Thread)
    (msgs : List Message) (hh : t.healthErr = none)
    (ho : env.outErr = none) (ha : env.asyncErr = none) :
    ((emitAll env t msgs).2.2.countP Effect.isOutEnq = 1) ∧
    ((emitAll env t msgs).2.2.countP Effect.isAsync = 1) ∧
    (emitAll env t msgs).2.2 = [Effect.enqueueOutAll msgs, Effect.asyncSend] ∧
    (emitAll env t msgs).2.1.outQ = t.outQ ++ msgs := by
  refine ⟨?_, ?_, ?_, ?_⟩ <;>
    simp [emitAll, hh, ho, ha, List.countP_cons, Effect.isOutEnq, Effect.isAsync]

/-- Witness for C7 on a concrete three-message batch. -/
theorem claim7_witness :
    ((emitAll envId t0 [ackX, cmdA, cmdR]).2.2.countP Effect.isOutEnq = 1) ∧
    ((emitAll envId t0 [ackX, cmdA, cmdR]).2.2.countP Effect.isAsync = 1) := by
  have h := claim7_emit_all_single_enqueue_single_wake envId t0
    [ackX, cmdA, cmdR] rfl rfl rfl
  exact ⟨h.1, h.2.1⟩

/-- Claim C9: on a healthy thread `receive_all` atomically takes and
clears the whole `out` queue; with nothing waiting it returns the
absent result `none`, and it never returns a present empty batch. -/
theorem claim9_receive_all_take_clear (t : Thread) (hh : t.healthErr = none) :
    (receiveAll t).2.outQ = [] ∧
    (t.outQ = [] → (receiveAll t).1 = .ok none) ∧
    (t.outQ ≠ [] → (receiveAll t).1 = .ok (some t.outQ)) ∧
    (∀ b, (receiveAll t).1 = .ok (some b) → b ≠ []) := by
  cases hq : t.outQ with
  | nil =>
    refine ⟨?_, ?_, ?_, ?_⟩ <;> simp [receiveAll, hh, hq]
  | cons a l =>
    refine ⟨?_, ?_, ?_, ?_⟩ <;> simp [receiveAll, hh, hq]

/-- Witness for C9 on a thread with one waiting message and on one with
none. -/
theorem claim9_witness :
    (receiveAll { t0 with outQ := [ackX] }).1 = .ok (some [ackX]) ∧
    (receiveAll { t0 with outQ := [ackX] }).2.outQ = [] ∧
    (receiveAll t0).1 = .ok none := by
  have h1 := claim9_receive_all_take_clear { t0 with outQ := [ackX] } rfl
  have h0 := claim9_receive_all_take_clear t0 rfl
  exact ⟨h1.2.2.1 (by simp), h1.1, h0.2.1 rfl⟩

/-- Claim C10: `send_all` on a healthy STARTING thread (neither
STOPPING, STOPPED nor RUNNING) enqueues the batch to `in` in order as
one batch write, issues no wake hint to the worker, and returns
`false`. -/
theorem claim10_send_all_starting (env : Env) (t : Thread)
    (msgs : List Message) (hh : t.healthErr = none)
    (hst : t.state = State.STARTING) (hin : env.inErr = none) :
    sendAll env t msgs =
      (.ok false, { t with inQ := t.inQ ++ msgs }, [Effect.enqueueInAll msgs]) ∧
    Effect.wakeHint ∉ (sendAll env t msgs).2.2 := by
  have heq : sendAll env t msgs =
      (.ok false, { t with inQ := t.inQ ++ msgs }, [Effect.enqueueInAll msgs]) := by
    simp [sendAll, sendAllRest, hh, hst, hin]
  exact ⟨heq, by rw [heq]; simp⟩

/-- A healthy STOPPING thread holding one dead letter, used by the C1
witness. -/
def tStopping : Thread :=
  { healthErr := none, state := State.STOPPING, inQ := [], outQ := [],
    dead_letter_office := some [cmdR] }

/-- Claim C1: `send_all` on a healthy thread observing STOPPING first
joins the worker; then, since `dead_letter_office` is non-empty, it
takes ownership of the buffer (the re-dispatched thread and the final
thread both have `dead_letter_office` absent), appends the new messages
after the dead letters in their supplied order, and re-dispatches the
combined sequence through the same path used for a STOPPED thread. -/
theorem claim1_stopping_join_replay (env : Env) (t : Thread)
    (dl msgs : List Message) (hh : t.healthErr = none)
    (hst : t.state = State.STOPPING) (hd : t.dead_letter_office = some dl)
    (hne : dl ≠ []) :
    sendAll env t msgs =
      ((sendAll env
          { t with state := State.STOPPED, dead_letter_office := none }
          (dl ++ msgs)).1,
       (sendAll env
          { t with state := State.STOPPED, dead_letter_office := none }
          (dl ++ msgs)).2.1,
       Effect.join ::
         (sendAll env
            { t with state := State.STOPPED, dead_letter_office := none }
            (dl ++ msgs)).2.2) ∧
    (sendAll env t msgs).2.2.head? = some Effect.join ∧
    (sendAll env t msgs).2.1.dead_letter_office = none := by
  have hfix := sendAll_fix_stopping env t dl msgs hh hst hd
  refine ⟨hfix, ?_, ?_⟩
  · rw [hfix]
    rfl
  · rw [hfix]
    have hre : sendAll env
        { t with state := State.STOPPED, dead_letter_office := none }
        (dl ++ msgs) =
        sendAllRest env
          { t with state := State.STOPPED, dead_letter_office := none }
          (dl ++ msgs) := by
      simp [sendAll, hh]
    rw [hre, sendAllRest_dlo]

/-- Witness for C1: a STOPPING thread with one dead letter joins and
ends with `dead_letter_office` absent. -/
theorem claim1_witness :
    ([cmdR] : List Message) ≠ [] ∧
    (sendAll envId tStopping [cmdA]).2.2.head? = some Effect.join ∧
    (sendAll envId tStopping [cmdA]).2.1.dead_letter_office = none := by
  have h := claim1_stopping_join_replay envId tStopping [cmdR] [cmdA]
    rfl rfl rfl (by simp)
  exact ⟨by simp, h.2.1, h.2.2⟩

/-- Claim C3: on a healthy STOPPED thread with reliable queues, `run()`
is called if and only if some message's offline handling returned
`TRIGGER_RUN`; every triggering message is enqueued to `in` (in batch
order) before `run()` is called; and, absent a propagated error, the
returned boolean is `true` iff the call produced at least one
synchronous ack — the two signals are characterised independently. -/
theorem claim3_stopped_run_and_ack_signals (env : Env) (t : Thread)
    (msgs : List Message) (hh : t.healthErr = none)
    (hst : t.state = State.STOPPED) (hin : env.inErr = none)
    (hout : env.outErr = none) :
    (Effect.runCall ∈ (sendAll env t msgs).2.2 ↔
      msgs.any (isTrig env) = true) ∧
    (sendAll env t msgs).2.1.inQ = t.inQ ++ trigs env msgs ∧
    (msgs.any (isTrig env) = true →
      ∃ pre, (sendAll env t msgs).2.2 = pre ++ [Effect.runCall] ∧
        ∀ m ∈ trigs env msgs, Effect.enqueueIn m ∈ pre) ∧
    (env.runErr = none →
      (sendAll env t msgs).1 = Except.ok (!(acksOf env msgs).isEmpty)) ∧
    ((acksOf env msgs).isEmpty = false ↔ ∃ m ∈ msgs, isTrig env m = false) := by
  rw [sendAll_stopped_cases env t msgs hh hst hin hout]
  refine ⟨?_, ?_, ?_, ?_, acksOf_nonempty_iff env msgs⟩
  · by_cases hsr : msgs.any (isTrig env) = true <;>
      cases hr : env.runErr <;>
        by_cases hA : (acksOf env msgs).isEmpty = true <;>
          simp [stoppedForm, hsr, hr, hA, mark_starting]
  · by_cases hsr : msgs.any (isTrig env) = true <;>
      cases hr : env.runErr <;>
        by_cases hA : (acksOf env msgs).isEmpty = true <;>
          simp [stoppedForm, hsr, hr, hA, mark_starting]
  · intro hsr
    refine ⟨(trigs env msgs).map Effect.enqueueIn ++
        (if (acksOf env msgs).isEmpty then []
         else [Effect.enqueueOutAll (acksOf env msgs)]), ?_, ?_⟩
    · cases hr : env.runErr <;>
        by_cases hA : (acksOf env msgs).isEmpty = true <;>
          simp [stoppedForm, hsr, hr, hA]
    · intro m hm
      exact List.mem_append_left _ (List.mem_map_of_mem _ hm)
  · intro hrun
    by_cases hsr : msgs.any (isTrig env) = true <;>
      by_cases hA : (acksOf env msgs).isEmpty = true <;>
        simp [stoppedForm, hsr, hrun, hA, mark_starting]

/-- Witness for C3: a batch with one offline-acked and one triggering
command both starts the thread and reports a synchronous ack. -/
theorem claim3_witness :
    Effect.runCall ∈ (sendAll envId t0 [cmdA, cmdR]).2.2 ∧
    (sendAll envId t0 [cmdA, cmdR]).2.1.inQ = [cmdR] ∧
    (sendAll envId t0 [cmdA, cmdR]).1 = Except.ok true := by
  have h := claim3_stopped_run_and_ack_signals envId t0 [cmdA, cmdR]
    rfl rfl rfl rfl
  exact ⟨h.1.mpr rfl, h.2.1.trans rfl, (h.2.2.2.1 rfl).trans rfl⟩

/-- Claim C8: a command whose offline handler returns an outcome that is
neither `OFFLINE_ACK` nor `TRIGGER_RUN` gets a failure ack whose text
names the handler's output; the acks for the earlier and later messages
of the batch are produced unchanged, the triggering messages of the rest
of the batch are still enqueued, and the instance's health is
unaffected. -/
theorem claim8_invalid_offline_outcome (env : Env) (t : Thread)
    (pre post : List Message) (m : Message) (c : CommandPayload) (k : Nat)
    (hh : t.healthErr = none) (hst : t.state = State.STOPPED)
    (hin : env.inErr = none) (hout : env.outErr = none)
    (hrun : env.runErr = none) (hc : m.as_command = some c)
    (ho : env.offline c = .ok k) (hk0 : k ≠ OFFLINE_ACK)
    (hk1 : k ≠ TRIGGER_RUN) :
    acksOf env (pre ++ m :: post) =
      acksOf env pre ++
        m.ackOf false (invalidOutcomeText m k) :: acksOf env post ∧
    (sendAll env t (pre ++ m :: post)).2.1.healthErr = none ∧
    (sendAll env t (pre ++ m :: post)).2.1.outQ =
      t.outQ ++ acksOf env (pre ++ m :: post) ∧
    (sendAll env t (pre ++ m :: post)).2.1.inQ =
      t.inQ ++ trigs env pre ++ trigs env post ∧
    (∃ p, invalidOutcomeText m k = p ++ outcomeDescr k) := by
  have hackm : ackFor env m = some (m.ackOf false (invalidOutcomeText m k)) := by
    simp [ackFor, hc, ho, hk0, hk1]
  have htrigm : isTrig env m = false := by
    simp [isTrig, hc, ho, hk0, hk1]
  have hA : acksOf env (pre ++ m :: post) =
      acksOf env pre ++
        m.ackOf false (invalidOutcomeText m k) :: acksOf env post := by
    simp [acksOf, List.filterMap_append, List.filterMap_cons, hackm]
  have hAneNil : acksOf env (pre ++ m :: post) ≠ [] := by
    rw [hA]; simp
  have hAne : (acksOf env (pre ++ m :: post)).isEmpty = false := by
    rw [List.isEmpty_eq_false]; exact hAneNil
  have htr : trigs env (pre ++ m :: post) = trigs env pre ++ trigs env post := by
    simp [trigs, List.filter_append, List.filter_cons, htrigm]
  rw [sendAll_stopped_cases env t _ hh hst hin hout]
  refine ⟨hA, ?_, ?_, ?_,
    ⟨"Message " ++ m.describe ++ " returned invalid offline outcome ", rfl⟩⟩
  · by_cases hsr : (pre ++ m :: post).any (isTrig env) = true <;>
      simp [stoppedForm, hsr, hrun, hAne, mark_starting, hh]
  · by_cases hsr : (pre ++ m :: post).any (isTrig env) = true <;>
      simp [stoppedForm, hsr, hrun, hAne, mark_starting]
  · by_cases hsr : (pre ++ m :: post).any (isTrig env) = true <;>
      simp [stoppedForm, hsr, hrun, hAne, mark_starting, htr]

/-- Witness for C8: a batch holding an offline-acked command, a command
with invalid outcome 7 and a non-command message keeps the thread
healthy and produces all three acks in order. -/
theorem claim8_witness :
    (sendAll envId t0 [cmdA, cmdBad, ackX]).2.1.healthErr = none ∧
    (sendAll envId t0 [cmdA, cmdBad, ackX]).2.1.outQ =
      acksOf envId [cmdA, cmdBad, ackX] ∧
    acksOf envId [cmdA, cmdBad, ackX] =
      [cmdA.ackOfResult (.ok ()),
       cmdBad.ackOf false (invalidOutcomeText cmdBad 7),
       ackX.ackOf false (nonCommandText ackX)] := by
  have h := claim8_invalid_offline_outcome envId t0 [cmdA] [ackX] cmdBad
    ⟨7, ""⟩ 7 rfl rfl rfl rfl rfl rfl rfl (by decide) (by decide)
  exact ⟨h.2.1, h.2.2.1, rfl⟩

/-- Witness for C10 on a concrete STARTING thread. -/
theorem claim10_witness :
    sendAll envId { t0 with state := State.STARTING } [cmdA, ackX] =
      (.ok false,
       { t0 with state := State.STARTING, inQ := [cmdA, ackX] },
       [Effect.enqueueInAll [cmdA, ackX]]) := by
  have h := claim10_send_all_starting envId { t0 with state := State.STARTING }
    [cmdA, ackX] rfl rfl rfl
  exact h.1

/-- Modelled from the spec: one observable lifecycle transition.  The
four `mark_*` operations come from thread.h lines 160-163; which side
performs which of them, and from which state, is the discipline of
§4.1/§5 (`run()` marks STARTING from STOPPED; the worker's `start()`
marks RUNNING from STARTING; the body loop marks STOPPING from RUNNING;
the stop sequence marks STOPPED from STOPPING — `thread.cpp` is not in
the snapshot).  Every transition is performed by one of the four
`mark_*` operations. -/
def LifeStep (t t' : Thread) : Prop :=
  (t.state = State.STOPPED ∧ t' = mark_starting t) ∨
  (t.state = State.STARTING ∧ t' = mark_running t) ∨
  (t.state = State.RUNNING ∧ t' = mark_stopping t) ∨
  (t.state = State.STOPPING ∧ t' = mark_stopped t)

/-- The state a thread holds after `n` lifecycle transitions out of
STOPPED: the four states repeating cyclically in the order
STOPPED, STARTING, RUNNING, STOPPING. -/
def cycleState (n : Nat) : State :=
  match n % 4 with
  | 0 => State.STOPPED
  | 1 => State.STARTING
  | 2 => State.RUNNING
  | _ => State.STOPPING

/-- One cyclic successor step of `cycleState`. -/
lemma cycleState_succ (n : Nat) :
    cycleState (n + 1) =
      match cycleState n with
      | State.STOPPED => State.STARTING
      | State.STARTING => State.RUNNING
      | State.RUNNING => State.STOPPING
      | State.STOPPING => State.STOPPED := by
  have hs : (n + 1) % 4 = (n % 4 + 1) % 4 := by omega
  have h4 : n % 4 = 0 ∨ n % 4 = 1 ∨ n % 4 = 2 ∨ n % 4 = 3 := by omega
  rcases h4 with h | h | h | h <;> rw [h] at hs <;>
    simp [cycleState, hs, h]

/-- Claim C4: any chain of lifecycle transitions starting from STOPPED
runs through the observable state sequence STOPPED → STARTING →
RUNNING → STOPPING → STOPPED, repeating as a whole: after `n`
transitions the state is exactly `cycleState n`, so no transition skips
a state or reverses, and by definition of `LifeStep` every transition is
performed via one of the four `mark_*` operations. -/
theorem claim4_lifecycle_cycle (f : Nat → Thread)
    (h0 : (f 0).state = State.STOPPED)
    (hstep : ∀ n, LifeStep (f n) (f (n + 1))) :
    ∀ n, (f n).state = cycleState n := by
  intro n
  induction n with
  | zero => simpa [cycleState] using h0
  | succ n ih =>
    rw [cycleState_succ n, ← ih]
    rcases hstep n with ⟨h, he⟩ | ⟨h, he⟩ | ⟨h, he⟩ | ⟨h, he⟩ <;>
      rw [he, h] <;>
        simp [mark_starting, mark_running, mark_stopping, mark_stopped]

/-- The concrete lifecycle trace that starts STOPPED and performs at
each step the `mark_*` operation its owner is due to perform. -/
def lifeTrace : Nat → Thread
  | 0 => t0
  | n + 1 =>
    match (lifeTrace n).state with
    | State.STOPPED => mark_starting (lifeTrace n)
    | State.STARTING => mark_running (lifeTrace n)
    | State.RUNNING => mark_stopping (lifeTrace n)
    | State.STOPPING => mark_stopped (lifeTrace n)

/-- Witness for C4: the concrete trace reaches STOPPING after three
transitions and is back to STOPPED after four. -/
theorem claim4_witness :
    (lifeTrace 3).state = State.STOPPING ∧
    (lifeTrace 4).state = State.STOPPED := by
  have hstep : ∀ n, LifeStep (lifeTrace n) (lifeTrace (n + 1)) := by
    intro n
    cases hs : (lifeTrace n).state with
    | STOPPED => exact Or.inl ⟨hs, by simp [lifeTrace, hs]⟩
    | STARTING => exact Or.inr (Or.inl ⟨hs, by simp [lifeTrace, hs]⟩)
    | RUNNING => exact Or.inr (Or.inr (Or.inl ⟨hs, by simp [lifeTrace, hs]⟩))
    | STOPPING => exact Or.inr (Or.inr (Or.inr ⟨hs, by simp [lifeTrace, hs]⟩))
  have h := claim4_lifecycle_cycle lifeTrace rfl hstep
  exact ⟨(h 3).trans rfl, (h 4).trans rfl⟩

end Watcher
